import Mathlib

/-!
Shallow embedding of the AmpSignals audio engine (`audio-engine.js`,
class `AudioEngine`) and proofs about its distortion-amount derivation,
distortion-curve synthesis, synthetic cabinet impulse-response synthesis,
and parameter/switch handling.

JS numbers are modelled as exact rationals (`ℚ`) in the control-state
machine, and as reals (`ℝ`) where the code uses `Math.tanh` / `Math.pow`
(curve and IR synthesis).  The WaveShaper lookup table of `Float32Array`
values is modelled as the real-valued function the loop computes, sampled
at the loop's positions.
-/

namespace AmpSignals

/-- The control-visible state of `AudioEngine`: the node parameters that
`setParam` / `toggleSwitch` / `updateDistortion` / `loadIR` read and write,
plus the `isInitialized` flag and the `ctx` presence flag (`ctx` is created
at the start of `init()`, `isInitialized` is set at its end).
`curveAmount` records the `amount` argument of the last
`makeDistortionCurve` call assigned to `nodes.distortion.curve`; the curve
itself is the deterministic function `curveFun curveAmount` (below).
`cabBuffer` is the buffer currently bound to the convolver, as the pair of
its two channels. -/
structure EngineState where
  hasCtx : Bool
  isInitialized : Bool
  currentAmp : String
  driveOn : Bool
  brightOn : Bool
  gateThreshold : ℚ
  brightGain : ℚ
  compRatio : ℚ
  compThreshold : ℚ
  preGainValue : ℚ
  voiceGain : ℚ
  voiceQ : ℚ
  bassGain : ℚ
  midGain : ℚ
  trebleGain : ℚ
  presenceGain : ℚ
  masterGain : ℚ
  curveAmount : ℚ
  cabBuffer : Option (List ℝ × List ℝ)

/-- `updateDistortion`: the per-model base distortion amount table
(two entries per model, drive-off / drive-on); unknown models fall through
with `baseAmount = 0`. -/
def baseAmount (amp : String) (drive : Bool) : ℚ :=
  if amp = "fender" then (if drive then 8 else 0.5)
  else if amp = "vox" then (if drive then 15 else 2)
  else if amp = "marshall" then (if drive then 25 else 3)
  else 0

/-- `updateDistortion`: `Math.max(0, (currentGain - 2) / 8)`. -/
def gainFactor (g : ℚ) : ℚ := max 0 ((g - 2) / 8)

/-- `updateDistortion`: `finalAmount = baseAmount * (0.2 + gainFactor * 0.8)`,
where `g` is the current value of the pre-gain node. -/
def finalAmount (amp : String) (drive : Bool) (g : ℚ) : ℚ :=
  baseAmount amp drive * (0.2 + gainFactor g * 0.8)

/-- `AudioEngine.updateDistortion()`: reads the current pre-gain node value,
the current amp model and the drive flag, and reassigns the waveshaper curve
to `makeDistortionCurve(finalAmount)`. -/
def updateDistortion (s : EngineState) : EngineState :=
  { s with curveAmount := finalAmount s.currentAmp s.driveOn s.preGainValue }

/-- `AudioEngine.setParam(param, value)`.  Bails out when not initialized;
otherwise dispatches on the parameter name exactly as the `switch` does.
No branch clamps its value. -/
def setParam (s : EngineState) (param : String) (value : ℚ) : EngineState :=
  if s.isInitialized = false then s
  else if param = "gate" then { s with gateThreshold := value }
  else if param = "compressor" then
    { s with compRatio := 1 + value * 11, compThreshold := -30 - value * 20 }
  else if param = "preGain" then
    -- gain.value := value * (drive ? 2.0 : 1.0), then updateDistortion()
    updateDistortion
      { s with preGainValue := value * (if s.driveOn then 2 else 1) }
  else if param = "voice" then
    { s with voiceGain := value * 3, voiceQ := 1.5 + |value| * 0.2 }
  else if param = "bass" then { s with bassGain := value }
  else if param = "mid" then { s with midGain := value }
  else if param = "treble" then { s with trebleGain := value }
  else if param = "presence" then { s with presenceGain := value }
  else if param = "master" then { s with masterGain := value * 0.2 }
  else s

/-- `AudioEngine.toggleSwitch(switchName, isActive)`.  Bails out when not
initialized.  The `drive` branch sets `state.drive` and calls
`updateDistortion()`; its `currentBase` local is computed but never used,
so the pre-gain node is left untouched. -/
def toggleSwitch (s : EngineState) (switchName : String) (isActive : Bool) :
    EngineState :=
  if s.isInitialized = false then s
  else if switchName = "bright" then
    { s with brightOn := isActive, brightGain := if isActive then 6 else 0 }
  else if switchName = "drive" then
    updateDistortion { s with driveOn := isActive }
  else s

/-- `AudioEngine.loadIR(arrayBuffer)`.  The external decode step
(`ctx.decodeAudioData`) is an external collaborator, modelled by its
outcome: `some b` when the bytes decode to buffer `b`, `none` when decoding
rejects.  Returns `none` (JS `undefined`) when `ctx` is absent, otherwise
`some true` / `some false`; on decode failure the `catch` path leaves the
state untouched. -/
def loadIR (s : EngineState) (decoded : Option (List ℝ × List ℝ)) :
    Option Bool × EngineState :=
  if s.hasCtx = false then (none, s)
  else
    match decoded with
    | some b => (some true, { s with cabBuffer := some b })
    | none => (some false, s)

/-- A concrete post-`init()` state used by closed counterexamples and
witnesses: the defaults `init()` establishes (pre-gain 3.0, drive off,
model `fender`, curve from `updateDistortion` at those values). -/
def initState : EngineState :=
  { hasCtx := true
    isInitialized := true
    currentAmp := "fender"
    driveOn := false
    brightOn := false
    gateThreshold := -60
    brightGain := 0
    compRatio := 1
    compThreshold := -30
    preGainValue := 3
    voiceGain := 0
    voiceQ := 1
    bassGain := 0
    midGain := 0
    trebleGain := 0
    presenceGain := 0
    masterGain := 1
    curveAmount := finalAmount "fender" false 3
    cabBuffer := none }

/-- `AudioEngine.makeDistortionCurve(amount)`: the value the loop body
stores at position `x` of the domain `[-1, 1]`.  `amount < 1` is the
near-linear low regime `x * (1 - 0.1 * amount)`; otherwise the tanh-based
saturation `tanh(k x) / tanh(k)` with `k = amount * 0.5`. -/
noncomputable def curveFun (amount x : ℝ) : ℝ :=
  if amount < 1 then x * (1 - 0.1 * amount)
  else Real.tanh (amount * 0.5 * x) / Real.tanh (amount * 0.5)

/-- `makeDistortionCurve`: `n_samples = 44100`. -/
def nSamples : ℕ := 44100

/-- `makeDistortionCurve`: the input position of table index `i`,
`x = i * 2 / n_samples - 1`. -/
noncomputable def xpos (i : ℕ) : ℝ := (i : ℝ) * 2 / (nSamples : ℝ) - 1

/-- `makeDistortionCurve`: the lookup-table entry at index `i`,
`curve[i] = curveFun amount (xpos i)`. -/
noncomputable def tableEntry (amount : ℝ) (i : ℕ) : ℝ :=
  curveFun amount (xpos i)

/-- `setInternalCab`: the raw decayed-noise sample before coloration,
`(Math.random() * 2 - 1) * Math.pow(1 - i / length, 4)`, with `u i` the
value drawn from `Math.random()` at iteration `i`. -/
noncomputable def decayedSample (u : ℕ → ℝ) (len i : ℕ) : ℝ :=
  (u i * 2 - 1) * (1 - (i : ℝ) / (len : ℝ)) ^ 4

/-- `setInternalCab`: the coloration applied in the branches that do not
read earlier samples — `fender` attenuates every even-index sample to 0.9×,
`vox` scales by 0.8, `marshall` at `i ≤ 2` (and unknown models) passes the
raw value through. -/
noncomputable def colorSimple (model : String) (u : ℕ → ℝ) (len i : ℕ) : ℝ :=
  if model = "fender" then
    (if i % 2 = 0 then decayedSample u len i * 0.9 else decayedSample u len i)
  else if model = "marshall" then decayedSample u len i
  else if model = "vox" then decayedSample u len i * 0.8
  else decayedSample u len i

/-- `setInternalCab`: the value stored at `left[i]` (and copied to
`right[i]`).  The `marshall` branch, for `i > 2`, averages the raw sample
with the two previously stored (already colored) samples:
`val = (val + left[i-1] + left[i-2]) / 3`. -/
noncomputable def cabSample (model : String) (u : ℕ → ℝ) (len : ℕ) :
    ℕ → ℝ
  | 0 => colorSimple model u len 0
  | 1 => colorSimple model u len 1
  | 2 => colorSimple model u len 2
  | (n + 3) =>
    if model = "marshall" then
      (decayedSample u len (n + 3) + cabSample model u len (n + 2) +
          cabSample model u len (n + 1)) / 3
    else colorSimple model u len (n + 3)

/-- `AudioEngine.setInternalCab(model)`: duration 0.5 s at the context's
sample rate, so `length = rate * 0.5` (an integer for the even rates the
engine creates; WebIDL truncates), and a 2-channel buffer whose channels
both receive `cabSample`. -/
noncomputable def setInternalCabBuffer (model : String) (rate : ℕ)
    (u : ℕ → ℝ) : List ℝ × List ℝ :=
  ((List.range (rate / 2)).map (cabSample model u (rate / 2)),
    (List.range (rate / 2)).map (cabSample model u (rate / 2)))

/-- Modelled from the spec (claim C1's words, not the source): the claimed
gain factor, `max(0, (g - 2) / 8)` additionally clamped to `[0,1]`. -/
def gainFactorSpec (g : ℚ) : ℚ := min 1 (max 0 ((g - 2) / 8))

/-- Modelled from the spec (claim C1's words): `finalAmount` computed with
the `[0,1]`-clamped gain factor. -/
def finalAmountSpec (amp : String) (drive : Bool) (g : ℚ) : ℚ :=
  baseAmount amp drive * (0.2 + gainFactorSpec g * 0.8)

/-! ### Helper lemmas -/

lemma tanh_pos_of_pos {y : ℝ} (hy : 0 < y) : 0 < Real.tanh y := by
  rw [Real.tanh_eq_sinh_div_cosh]
  exact div_pos (Real.sinh_pos_iff.mpr hy) (Real.cosh_pos y)

lemma tanh_le_tanh_of_le {a b : ℝ} (hab : a ≤ b) :
    Real.tanh a ≤ Real.tanh b := by
  have ha := (Real.cosh_pos a).ne'
  have hb := (Real.cosh_pos b).ne'
  have key : Real.tanh b - Real.tanh a =
      Real.sinh (b - a) / (Real.cosh b * Real.cosh a) := by
    rw [Real.tanh_eq_sinh_div_cosh, Real.tanh_eq_sinh_div_cosh,
      Real.sinh_sub]
    field_simp
  have hnn : 0 ≤ Real.sinh (b - a) / (Real.cosh b * Real.cosh a) :=
    div_nonneg (Real.sinh_nonneg_iff.mpr (by linarith))
      (mul_pos (Real.cosh_pos b) (Real.cosh_pos a)).le
  linarith [key ▸ hnn]

lemma curveFun_odd (amount x : ℝ) :
    curveFun amount (-x) = - curveFun amount x := by
  unfold curveFun
  split_ifs with h
  · ring
  · rw [show amount * 0.5 * -x = -(amount * 0.5 * x) by ring, Real.tanh_neg,
      neg_div]

lemma curveFun_mono (amount : ℝ) {x y : ℝ}
    (hxy : x ≤ y) : curveFun amount x ≤ curveFun amount y := by
  unfold curveFun
  split_ifs with h
  · have hc : (0 : ℝ) ≤ 1 - 0.1 * amount := by linarith
    exact mul_le_mul_of_nonneg_right hxy hc
  · push_neg at h
    have hk : (0 : ℝ) < amount * 0.5 := by linarith
    have htk : 0 < Real.tanh (amount * 0.5) := tanh_pos_of_pos hk
    have harg : Real.tanh (amount * 0.5 * x) ≤ Real.tanh (amount * 0.5 * y) :=
      tanh_le_tanh_of_le (mul_le_mul_of_nonneg_left hxy hk.le)
    gcongr

lemma xpos_monotone {i j : ℕ} (hij : i ≤ j) : xpos i ≤ xpos j := by
  unfold xpos nSamples
  have : (i : ℝ) ≤ (j : ℝ) := Nat.cast_le.mpr hij
  have h2 : (i : ℝ) * 2 / 44100 ≤ (j : ℝ) * 2 / 44100 := by gcongr
  linarith

lemma xpos_pair {i : ℕ} (hi : i ≤ nSamples) :
    xpos (nSamples - i) = - xpos i := by
  unfold xpos
  rw [Nat.cast_sub hi]
  unfold nSamples
  push_cast
  ring

lemma baseAmount_nonneg (amp : String) (drive : Bool) :
    0 ≤ baseAmount amp drive := by
  unfold baseAmount
  split_ifs <;> norm_num

lemma gainFactor_mono {g1 g2 : ℚ} (h : g1 ≤ g2) :
    gainFactor g1 ≤ gainFactor g2 := by
  unfold gainFactor
  have : (g1 - 2) / 8 ≤ (g2 - 2) / 8 := by linarith
  exact max_le_max le_rfl this

lemma gainFactor_nonneg (g : ℚ) : 0 ≤ gainFactor g := le_max_left 0 _

lemma finalAmount_mono (amp : String) (drive : Bool) {g1 g2 : ℚ}
    (h : g1 ≤ g2) : finalAmount amp drive g1 ≤ finalAmount amp drive g2 := by
  unfold finalAmount
  have hgf := gainFactor_mono h
  have hb := baseAmount_nonneg amp drive
  nlinarith [gainFactor_nonneg g1, gainFactor_nonneg g2]

/-! ### Claim theorems -/

/-- C1, counterexample: the code's gain factor `max(0, (g - 2) / 8)` is not
clamped above at 1.  Setting pre-gain to 18 (reachable, since `setParam`
does not clamp) yields `finalAmount = 0.5 * (0.2 + 2 * 0.8) = 0.9`, while
the claimed `[0,1]`-clamped formula yields `0.5 * (0.2 + 1 * 0.8) = 0.5`. -/
theorem c1_gain_factor_unclamped_counterexample :
    (setParam initState "preGain" 18).curveAmount = 0.9 ∧
    finalAmountSpec "fender" false 18 = 0.5 ∧ (0.9 : ℚ) ≠ 0.5 := by
  refine ⟨?_, ?_, by norm_num⟩
  · simp only [setParam, initState, updateDistortion, String.reduceEq]
    norm_num [finalAmount, baseAmount, gainFactor, max_def, String.reduceEq]
  · norm_num [finalAmountSpec, baseAmount, gainFactorSpec, max_def, min_def,
      String.reduceEq]

/-- C1, amended: the distortion amount fed to curve synthesis equals
`baseAmount * (0.2 + gainFactor * 0.8)` with
`gainFactor = max(0, (g - 2) / 8)` clamped below at 0 but not above at 1;
it coincides with the `[0,1]`-clamped formula whenever `g ≤ 10`, and for
model `fender` (clean) with drive off and pre-gain 3.0 the final amount is
0.15. -/
theorem c1_amount_formula :
    (∀ (amp : String) (drive : Bool) (g : ℚ),
      finalAmount amp drive g
        = baseAmount amp drive * (0.2 + max 0 ((g - 2) / 8) * 0.8)) ∧
    (∀ (amp : String) (drive : Bool) (g : ℚ), g ≤ 10 →
      finalAmount amp drive g = finalAmountSpec amp drive g) ∧
    finalAmount "fender" false 3 = 0.15 := by
  refine ⟨fun amp drive g => rfl, fun amp drive g hg => ?_,
    by norm_num [finalAmount, baseAmount, gainFactor, max_def]⟩
  unfold finalAmount finalAmountSpec gainFactor gainFactorSpec
  have h1 : (g - 2) / 8 ≤ 1 := by linarith
  have h2 : max 0 ((g - 2) / 8) ≤ 1 := max_le (by norm_num) h1
  rw [min_eq_right h2]

/-- C1 witness: the amended claim instantiated at model `vox`, drive on,
pre-gain 7. -/
theorem c1_amount_formula_witness :
    finalAmount "vox" true 7 = finalAmountSpec "vox" true 7 :=
  c1_amount_formula.2.1 "vox" true 7 (by norm_num)

/-- C2: for every `amount ≥ 0` the synthesized table is odd-symmetric on
every pair of mirrored positions (`xpos (nSamples - i) = -xpos i`), and for
`amount ≥ 1` the domain endpoints map exactly to `∓1`: the table entry at
position `-1` is `-1` and the transfer function sends `1` to `1` and `-1`
to `-1`. -/
theorem c2_curve_odd_and_endpoints (amount : ℝ) (_hamt : 0 ≤ amount) :
    (∀ i : ℕ, 0 < i → i < nSamples →
      tableEntry amount (nSamples - i) = - tableEntry amount i) ∧
    (1 ≤ amount →
      tableEntry amount 0 = -1 ∧ curveFun amount 1 = 1 ∧
        curveFun amount (-1) = -1) := by
  constructor
  · intro i hi1 hi2
    unfold tableEntry
    rw [xpos_pair hi2.le, curveFun_odd]
  · intro h1
    have hnot : ¬ (amount < 1) := not_lt.mpr h1
    have hk : (0 : ℝ) < amount * 0.5 := by linarith
    have htk : Real.tanh (amount * 0.5) ≠ 0 := (tanh_pos_of_pos hk).ne'
    have hone : curveFun amount 1 = 1 := by
      unfold curveFun
      rw [if_neg hnot, mul_one, div_self htk]
    have hneg : curveFun amount (-1) = -1 := by
      rw [show (-1 : ℝ) = -(1 : ℝ) by norm_num, curveFun_odd, hone]
    refine ⟨?_, hone, hneg⟩
    have hx0 : xpos 0 = -1 := by unfold xpos nSamples; norm_num
    unfold tableEntry
    rw [hx0, hneg]

/-- C2 witness: the claim instantiated at `amount = 2` and the mirrored
pair `(1, nSamples - 1)`, plus the upper endpoint. -/
theorem c2_curve_odd_and_endpoints_witness :
    tableEntry 2 (nSamples - 1) = - tableEntry 2 1 ∧ curveFun 2 1 = 1 :=
  ⟨(c2_curve_odd_and_endpoints 2 (by norm_num)).1 1 (by norm_num)
      (by norm_num [nSamples]),
    ((c2_curve_odd_and_endpoints 2 (by norm_num)).2 (by norm_num)).2.1⟩

/-- C4: for every `amount ≥ 0` the synthesized lookup table is
monotonically non-decreasing across the input domain, in the low regime
(`amount < 1`, linear with non-negative slope) as well as in the high
regime (`amount ≥ 1`, tanh saturation): `i ≤ j → table[i] ≤ table[j]`. -/
theorem c4_curve_monotone (amount : ℝ) (_hamt : 0 ≤ amount) (i j : ℕ)
    (hij : i ≤ j) (_hj : j < nSamples) :
    tableEntry amount i ≤ tableEntry amount j :=
  curveFun_mono amount (xpos_monotone hij)

/-- C4 witness: monotonicity at `amount = 0.5` (low regime) between
positions 3 and 7. -/
theorem c4_curve_monotone_witness : tableEntry 0.5 3 ≤ tableEntry 0.5 7 :=
  c4_curve_monotone 0.5 (by norm_num) 3 7 (by norm_num)
    (by norm_num [nSamples])

/-- C3, counterexample: `setParam('master', 12)` applies
`masterGain = 12 * 0.2 = 2.4`, not the gain `10 * 0.2 = 2` that the clamped
value 10 would give — the code has no clamping on the master branch. -/
theorem c3_master_not_clamped_counterexample :
    (setParam initState "master" 12).masterGain = 2.4 ∧
    (2.4 : ℚ) ≠ 10 * 0.2 := by
  constructor
  · simp only [setParam, initState, String.reduceEq]
    norm_num
  · norm_num

/-- C3, amended: `setParam('master', v)` passes `v` straight through the
fixed safety factor — the new state is the old one with
`masterGain = v * 0.2`, with no clamping of out-of-domain values. -/
theorem c3_master_pass_through (s : EngineState) (v : ℚ)
    (h : s.isInitialized = true) :
    setParam s "master" v = { s with masterGain := v * 0.2 } := by
  simp [setParam, h]

/-- C3 witness: the amended claim at the concrete post-init state and
value 12. -/
theorem c3_master_pass_through_witness :
    setParam initState "master" 12 = { initState with masterGain := 12 * 0.2 } :=
  c3_master_pass_through initState 12 rfl

/-- C5, counterexample: enabling the drive switch does not multiply the
pre-gain stage's gain — from the post-init state (pre-gain 3.0),
`toggleSwitch('drive', true)` leaves the pre-gain value at 3, not 3 × 2. -/
theorem c5_drive_counterexample :
    (toggleSwitch initState "drive" true).preGainValue = 3 ∧
    (3 : ℚ) ≠ 3 * 2 := by
  constructor
  · simp only [toggleSwitch, updateDistortion, initState, String.reduceEq]
    norm_num
  · norm_num

/-- C5, amended: enabling the drive switch sets the drive flag and triggers
a distortion-curve recomputation (from the unchanged pre-gain value), but
leaves the pre-gain stage's gain untouched; the fixed 2.0× boost factor is
applied to the effective pre-gain only by the next `setParam('preGain')`
call. -/
theorem c5_drive_sets_flag_and_recomputes (s : EngineState) (b : Bool)
    (h : s.isInitialized = true) :
    toggleSwitch s "drive" b = updateDistortion { s with driveOn := b } ∧
    (toggleSwitch s "drive" b).preGainValue = s.preGainValue ∧
    (toggleSwitch s "drive" b).driveOn = b ∧
    (toggleSwitch s "drive" b).curveAmount
      = finalAmount s.currentAmp b s.preGainValue ∧
    (∀ v : ℚ,
      (setParam (toggleSwitch s "drive" true) "preGain" v).preGainValue
        = v * 2) := by
  refine ⟨by simp [toggleSwitch, h], by simp [toggleSwitch, updateDistortion, h],
    by simp [toggleSwitch, updateDistortion, h],
    by simp [toggleSwitch, updateDistortion, h], fun v => ?_⟩
  simp [toggleSwitch, setParam, updateDistortion, h]

/-- C5 witness: the amended claim at the concrete post-init state with the
switch turned on. -/
theorem c5_drive_sets_flag_and_recomputes_witness :
    (toggleSwitch initState "drive" true).driveOn = true ∧
    (toggleSwitch initState "drive" true).preGainValue = initState.preGainValue :=
  ⟨(c5_drive_sets_flag_and_recomputes initState true rfl).2.2.1,
    (c5_drive_sets_flag_and_recomputes initState true rfl).2.1⟩

/-- C6: every initialized `setParam('preGain', v)` call recomputes the
distortion curve from `finalAmount` at the new effective gain
`v * (drive ? 2 : 1)`, and the resulting amount is non-decreasing in the
pre-gain value for fixed model and drive flag. -/
theorem c6_pregain_recompute_monotone (s : EngineState) (v v1 v2 : ℚ)
    (h : s.isInitialized = true) (hv : v1 ≤ v2) :
    (setParam s "preGain" v).curveAmount
      = finalAmount s.currentAmp s.driveOn (v * (if s.driveOn then 2 else 1)) ∧
    (setParam s "preGain" v1).curveAmount
      ≤ (setParam s "preGain" v2).curveAmount := by
  constructor
  · simp [setParam, updateDistortion, h]
  · have hm : (0 : ℚ) ≤ (if s.driveOn then 2 else 1) := by split <;> norm_num
    have hg : v1 * (if s.driveOn then 2 else 1)
        ≤ v2 * (if s.driveOn then 2 else 1) :=
      mul_le_mul_of_nonneg_right hv hm
    simpa [setParam, updateDistortion, h] using
      finalAmount_mono s.currentAmp s.driveOn hg

/-- C6 witness: the claim at the concrete post-init state, `v = 4`,
`v1 = 3 ≤ v2 = 5`. -/
theorem c6_pregain_recompute_monotone_witness :
    (setParam initState "preGain" 3).curveAmount
      ≤ (setParam initState "preGain" 5).curveAmount :=
  (c6_pregain_recompute_monotone initState 4 3 5 rfl (by norm_num)).2

/-- C7: from any initialized state with the drive flag off whose curve is
coherent with its parameters (as every reachable post-init state is),
toggling drive on and then off restores the entire engine state — in
particular the distortion amount and hence the curve. -/
theorem c7_drive_toggle_roundtrip (s : EngineState)
    (hinit : s.isInitialized = true) (hdrive : s.driveOn = false)
    (hcurve : s.curveAmount = finalAmount s.currentAmp false s.preGainValue) :
    toggleSwitch (toggleSwitch s "drive" true) "drive" false = s := by
  cases s
  simp_all [toggleSwitch, updateDistortion]

/-- C7 witness: the round trip at the concrete post-init state. -/
theorem c7_drive_toggle_roundtrip_witness :
    toggleSwitch (toggleSwitch initState "drive" true) "drive" false
      = initState :=
  c7_drive_toggle_roundtrip initState rfl rfl rfl

/-- C9: when decoding fails, `loadIR` returns `false` and leaves the state
— in particular the convolver's bound buffer — exactly as it was. -/
theorem c9_load_ir_decode_failure (s : EngineState) (h : s.hasCtx = true) :
    loadIR s none = (some false, s) := by
  simp [loadIR, h]

/-- C9 witness: decode failure on a state holding a previously active
buffer leaves that buffer bound. -/
theorem c9_load_ir_decode_failure_witness :
    loadIR { initState with cabBuffer := some ([0], [0]) } none
      = (some false, { initState with cabBuffer := some ([0], [0]) }) :=
  c9_load_ir_decode_failure { initState with cabBuffer := some ([0], [0]) } rfl

/-- C10: before initialization has completed, `setParam` and `toggleSwitch`
are total no-ops — they return the state unchanged for every parameter
name, value, switch name and flag. -/
theorem c10_preinit_noop (s : EngineState) (p : String) (v : ℚ)
    (n : String) (b : Bool) (h : s.isInitialized = false) :
    setParam s p v = s ∧ toggleSwitch s n b = s := by
  constructor <;> simp [setParam, toggleSwitch, h]

/-- C10 witness: the freshly constructed (pre-`init`) state at concrete
arguments. -/
theorem c10_preinit_noop_witness :
    setParam { initState with hasCtx := false, isInitialized := false }
        "master" 12
      = { initState with hasCtx := false, isInitialized := false } ∧
    toggleSwitch { initState with hasCtx := false, isInitialized := false }
        "drive" true
      = { initState with hasCtx := false, isInitialized := false } :=
  c10_preinit_noop { initState with hasCtx := false, isInitialized := false }
    "master" 12 "drive" true rfl

/-- C8: synthetic IR generation returns a 2-channel buffer whose channels
are identical sample-for-sample, of length `sampleRate × 0.5 s`; each
sample is the uniform draw mapped to `[-1, 1]` and scaled by the decay
envelope `(1 - i/length)^4`, with the selected model's coloration rule
applied (identically to both channels, since both receive `cabSample`);
the `marshall` rule averages each sample past index 2 with the two
previously colored samples. -/
theorem c8_ir_buffer_shape (model : String) (rate : ℕ) (u : ℕ → ℝ)
    (hrate : 2 ∣ rate) (hu : ∀ i, 0 ≤ u i ∧ u i ≤ 1) :
    (setInternalCabBuffer model rate u).2
      = (setInternalCabBuffer model rate u).1 ∧
    ((setInternalCabBuffer model rate u).1.length : ℝ) = (rate : ℝ) * (1 / 2) ∧
    (∀ i : ℕ, -1 ≤ u i * 2 - 1 ∧ u i * 2 - 1 ≤ 1) ∧
    (∀ i : ℕ, i < rate / 2 →
      (setInternalCabBuffer model rate u).1.getD i 0
        = cabSample model u (rate / 2) i) ∧
    (∀ i : ℕ, 2 < i →
      cabSample "marshall" u (rate / 2) i
        = (decayedSample u (rate / 2) i
            + cabSample "marshall" u (rate / 2) (i - 1)
            + cabSample "marshall" u (rate / 2) (i - 2)) / 3) := by
  refine ⟨rfl, ?_, ?_, ?_, ?_⟩
  · obtain ⟨k, hk⟩ := hrate
    subst hk
    have hlen : (setInternalCabBuffer model (2 * k) u).1.length = k := by
      simp [setInternalCabBuffer, Nat.mul_div_cancel_left k
        (by norm_num : 0 < (2 : ℕ))]
    rw [hlen]
    push_cast
    ring
  · intro i
    obtain ⟨h0, h1⟩ := hu i
    constructor <;> linarith
  · intro i hi
    have hlen : i < ((List.range (rate / 2)).map
        (cabSample model u (rate / 2))).length := by simpa using hi
    rw [show (setInternalCabBuffer model rate u).1
        = (List.range (rate / 2)).map (cabSample model u (rate / 2)) from rfl,
      List.getD_eq_getElem _ _ hlen]
    simp
  · intro i hi
    obtain ⟨n, rfl⟩ : ∃ n, i = n + 3 := ⟨i - 3, by omega⟩
    rw [show n + 3 - 1 = n + 2 from rfl, show n + 3 - 2 = n + 1 from rfl]
    simp [cabSample]

/-- C8 witness: the claim at model `fender`, the engine's 48 kHz sample
rate, and the constant zero random source. -/
theorem c8_ir_buffer_shape_witness :
    (setInternalCabBuffer "fender" 48000 (fun _ => 0)).2
      = (setInternalCabBuffer "fender" 48000 (fun _ => 0)).1 ∧
    ((setInternalCabBuffer "fender" 48000 (fun _ => 0)).1.length : ℝ)
      = (48000 : ℝ) * (1 / 2) :=
  ⟨(c8_ir_buffer_shape "fender" 48000 (fun _ => 0) (by norm_num)
      (fun i => by norm_num)).1,
    (c8_ir_buffer_shape "fender" 48000 (fun _ => 0) (by norm_num)
      (fun i => by norm_num)).2.1⟩

end AmpSignals
